import Mathlib

/-!
Verification of the dynamic mapping/transformation engine
(`src/converter/transformers/dynamic.py`) of the csv-etl repository.

The engine is shallowly embedded: every Lean definition below mirrors one
Python function of `DynamicTransformer` (or a helper it calls).  Python
values that can appear in a CSV row or a mapping configuration are
modelled by `Val` (None, str, float); Python floats are modelled as exact
rationals (`PyNum`, kept in lowest terms), which agrees with IEEE doubles
on every decimal literal used in the claims.  Python `dict`s are modelled
as association lists preserving insertion order, because the formula
substitution loop iterates rows in insertion order.  Fallible I/O is
modelled with `Except`: an uncaught Python exception corresponds to an
`Except.error` escaping a definition.
-/

namespace Etl

/-! ## Rationals in lowest terms (model of Python float values)

`Nat.gcd` from core is defined by well-founded recursion, which the kernel
cannot evaluate, so a fuelled structural gcd is used instead. -/

def gcdFuel : Nat → Nat → Nat → Nat
  | 0, _, b => b
  | _ + 1, 0, b => b
  | f + 1, a + 1, b => gcdFuel f (b % (a + 1)) (a + 1)

def natGcd (a b : Nat) : Nat := gcdFuel (a + 1) a b

/-- A rational number `num / den`, kept normalized (lowest terms, `den > 0`)
by the smart constructor `PyNum.norm`.  Models a Python `float`/`int` value
exactly; decimal arithmetic in the claims stays inside the exactly
representable range of IEEE doubles. -/
structure PyNum where
  num : Int
  den : Nat
deriving DecidableEq

def PyNum.norm (n : Int) (d : Nat) : PyNum :=
  if d = 0 then ⟨0, 0⟩
  else
    let g := natGcd n.natAbs d
    ⟨n / (g : Int), d / g⟩

def PyNum.ofInt (n : Int) : PyNum := ⟨n, 1⟩

def PyNum.addP (a b : PyNum) : PyNum :=
  PyNum.norm (a.num * (b.den : Int) + b.num * (a.den : Int)) (a.den * b.den)

def PyNum.subP (a b : PyNum) : PyNum :=
  PyNum.norm (a.num * (b.den : Int) - b.num * (a.den : Int)) (a.den * b.den)

def PyNum.mulP (a b : PyNum) : PyNum :=
  PyNum.norm (a.num * b.num) (a.den * b.den)

/-- Division; the caller must rule out a zero divisor (Python raises
`ZeroDivisionError` there, which the formula evaluator turns into `None`). -/
def PyNum.divP (a b : PyNum) : PyNum :=
  let n := a.num * (b.den : Int)
  PyNum.norm (if b.num < 0 then -n else n) (a.den * b.num.natAbs)

def PyNum.negP (a : PyNum) : PyNum := ⟨-a.num, a.den⟩

/-! ## Python values -/

/-- A Python value that can appear in a CSV row or in a mapping
configuration: `None`, a string, or a number.  (Booleans/lists inside
configurations are outside the model; the dashboard schema in
`converter_dashboard/models.py` only produces strings, numbers and null.) -/
inductive Val where
  | none
  | str (s : String)
  | num (q : PyNum)
deriving DecidableEq

/-- Python truthiness: `None`, `""` and `0` are falsy. -/
def truthy : Val → Bool
  | .none => false
  | .str s => !(s.data.isEmpty)
  | .num q => decide (q.num ≠ 0)

/-! ## Character and string helpers (structural, kernel-evaluable) -/

def sqc : Char := Char.ofNat 39

def dqc : Char := Char.ofNat 34

def digitVal (c : Char) : Nat := c.toNat - 48

def pow10 : Nat → Nat
  | 0 => 1
  | k + 1 => 10 * pow10 k

def digitsToNat (l : List Char) : Nat :=
  l.foldl (fun a c => 10 * a + digitVal c) 0

def natDigitsAux : Nat → Nat → List Char → List Char
  | 0, _, acc => acc
  | _ + 1, 0, acc => acc
  | f + 1, n, acc => natDigitsAux f (n / 10) (Char.ofNat (48 + n % 10) :: acc)

/-- Decimal digits of a natural number, as Python prints it. -/
def natStr (n : Nat) : String :=
  if n = 0 then "0" else String.mk (natDigitsAux (n + 1) n [])

def intStr (n : Int) : String :=
  if n < 0 then "-" ++ natStr n.natAbs else natStr n.natAbs

/-- Prepend zeros until the digit list has length `k`. -/
def padZeros (l : List Char) (k : Nat) : List Char :=
  List.replicate (k - l.length) '0' ++ l

/-- Does `pat` occur as a contiguous substring of `s`?  Model of Python
`pat in s` for strings (the empty pattern is contained everywhere). -/
def listIsSub (s pat : List Char) : Bool :=
  if pat.isEmpty then true
  else (List.range (s.length + 1)).any (fun i => (s.drop i).take pat.length = pat)

/-- Replace every non-overlapping occurrence of `pat` (nonempty) in `s` by
`rep`, scanning left to right.  Model of Python `str.replace`. -/
def listReplace : Nat → List Char → List Char → List Char → List Char
  | 0, s, _, _ => s
  | _ + 1, [], _, _ => []
  | f + 1, c :: cs, pat, rep =>
    if (c :: cs).take pat.length = pat ∧ ¬pat.isEmpty then
      rep ++ listReplace f ((c :: cs).drop pat.length) pat rep
    else
      c :: listReplace f cs pat rep

def strReplace (s pat rep : String) : String :=
  String.mk (listReplace (s.data.length + 1) s.data pat.data rep.data)

def strIsSub (s pat : String) : Bool := listIsSub s.data pat.data

def listStartsP : List Char → List Char → Bool
  | [], _ => true
  | _ :: _, [] => false
  | pc :: ps, c :: cs => c = pc && listStartsP ps cs

/-- Does `s` start with `p`?  (Model of Python `str.startswith`, used only
to state claims about log lines.) -/
def strStarts (s p : String) : Bool := listStartsP p.data s.data

def trimChars (l : List Char) : List Char :=
  ((l.dropWhile Char.isWhitespace).reverse.dropWhile Char.isWhitespace).reverse

/-! ## Model of Python `float(str)` and `str(float)` -/

/-- Parse the digit/fraction/exponent part of a float literal, given the
characters after the optional sign.  Returns the value scaled as
`mantissa / 10^fracDigits`, with the exponent applied. -/
def floatCore (l : List Char) : Option PyNum :=
  let ip := l.takeWhile Char.isDigit
  let r1 := l.drop ip.length
  let (fp, r2) :=
    match r1 with
    | '.' :: t => (t.takeWhile Char.isDigit, (t.dropWhile Char.isDigit))
    | _ => ([], r1)
  if ip.isEmpty ∧ fp.isEmpty then none
  else
    let mant : Int := (digitsToNat (ip ++ fp) : Int)
    let base : PyNum := PyNum.norm mant (pow10 fp.length)
    match r2 with
    | [] => some base
    | 'e' :: t => floatExp base t
    | 'E' :: t => floatExp base t
    | _ => none
where
  floatExp (base : PyNum) (t : List Char) : Option PyNum :=
    let (sgn, t2) :=
      match t with
      | '+' :: u => (true, u)
      | '-' :: u => (false, u)
      | _ => (true, t)
    if t2.isEmpty ∨ ¬(t2.all Char.isDigit) then none
    else
      let e := digitsToNat t2
      if sgn then some (PyNum.mulP base (PyNum.ofInt (pow10 e)))
      else some (PyNum.norm base.num (base.den * pow10 e))

/-- Model of Python `float(s)`: optional surrounding whitespace, optional
sign, digits with optional fraction and exponent.  (`inf`, `nan` and
digit-group underscores are outside the model.) -/
def pyFloat (s : String) : Option PyNum :=
  let l := trimChars s.data
  match l with
  | '+' :: t => floatCore t
  | '-' :: t => (floatCore t).map PyNum.negP
  | _ => floatCore l

def findScaleAux (n d : Nat) : Nat → Nat → Option Nat
  | 0, _ => Option.none
  | f + 1, k => if (n * pow10 k) % d = 0 then some k else findScaleAux n d f (k + 1)

/-- Model of Python `str(float)` (shortest round-tripping decimal) for
numbers whose denominator divides a power of ten — which is every number
`float()` can produce in this model.  Matches CPython on all decimals of
at most 15 significant digits; the e-notation used for very large or very
small magnitudes is outside the model. -/
def floatRepr (q : PyNum) : String :=
  let sgn := if q.num < 0 then "-" else ""
  let n := q.num.natAbs
  if q.den = 1 then sgn ++ natStr n ++ ".0"
  else
    match findScaleAux n q.den 64 1 with
    | some k =>
      let scaled := n * pow10 k / q.den
      sgn ++ natStr (scaled / pow10 k) ++ "." ++
        String.mk (padZeros (natStr (scaled % pow10 k)).data k)
    | Option.none => sgn ++ natStr n ++ "/" ++ natStr q.den

/-- Model of Python `str(x)` for the values of this embedding. -/
def pyStr : Val → String
  | .none => "None"
  | .str s => s
  | .num q => floatRepr q

/-! ## Model of `eval` restricted to arithmetic

`_evaluate_formula` hands the substituted string to `eval` and maps every
exception (`SyntaxError`, `NameError` for leftover identifiers,
`ZeroDivisionError`, …) to `None`.  The model below evaluates the
grammar of arithmetic expressions over `+ - * / ( )`, unary signs and
numeric literals, and returns `Option.none` for anything else — which is
exactly the observable behaviour of the guarded `eval` on such input.
(The rarely used operators `**`, `//` and `%` are outside the model.) -/

inductive Tok where
  | num (q : PyNum)
  | add
  | sub
  | mul
  | div
  | lpar
  | rpar
deriving DecidableEq

def tokenize : Nat → List Char → Option (List Tok)
  | 0, _ => Option.none
  | _ + 1, [] => some []
  | f + 1, c :: cs =>
    if c.isWhitespace then tokenize f cs
    else if c = '+' then (tokenize f cs).map (Tok.add :: ·)
    else if c = '-' then (tokenize f cs).map (Tok.sub :: ·)
    else if c = '*' then (tokenize f cs).map (Tok.mul :: ·)
    else if c = '/' then (tokenize f cs).map (Tok.div :: ·)
    else if c = '(' then (tokenize f cs).map (Tok.lpar :: ·)
    else if c = ')' then (tokenize f cs).map (Tok.rpar :: ·)
    else if c.isDigit ∨ c = '.' then
      let ip := (c :: cs).takeWhile Char.isDigit
      let r1 := (c :: cs).drop ip.length
      let (fp, r2) :=
        match r1 with
        | '.' :: t => (t.takeWhile Char.isDigit, t.dropWhile Char.isDigit)
        | _ => ([], r1)
      let q := PyNum.norm (digitsToNat (ip ++ fp) : Int) (pow10 fp.length)
      (tokenize f r2).map (Tok.num q :: ·)
    else Option.none

/-- Recursive-descent parser/evaluator with explicit fuel.  `lvl 0` parses
a sum, `lvl 1` a product, `lvl 2` an atom (number, unary sign, parens);
`lvl 3`/`lvl 4` are the left-associative continuation loops carrying the
accumulated value.  Division by zero yields `Option.none`. -/
def parseL : Nat → Nat → PyNum → List Tok → Option (PyNum × List Tok)
  | 0, _, _, _ => Option.none
  | f + 1, 0, a, ts =>
    match parseL f 1 a ts with
    | some (q, r) => parseL f 3 q r
    | Option.none => Option.none
  | f + 1, 1, a, ts =>
    match parseL f 2 a ts with
    | some (q, r) => parseL f 4 q r
    | Option.none => Option.none
  | f + 1, 2, a, ts =>
    match ts with
    | Tok.num q :: r => some (q, r)
    | Tok.add :: r => parseL f 2 a r
    | Tok.sub :: r =>
      match parseL f 2 a r with
      | some (q, r2) => some (PyNum.negP q, r2)
      | Option.none => Option.none
    | Tok.lpar :: r =>
      match parseL f 0 a r with
      | some (q, Tok.rpar :: r2) => some (q, r2)
      | _ => Option.none
    | _ => Option.none
  | f + 1, 3, a, ts =>
    match ts with
    | Tok.add :: r =>
      match parseL f 1 a r with
      | some (q, r2) => parseL f 3 (PyNum.addP a q) r2
      | Option.none => Option.none
    | Tok.sub :: r =>
      match parseL f 1 a r with
      | some (q, r2) => parseL f 3 (PyNum.subP a q) r2
      | Option.none => Option.none
    | _ => some (a, ts)
  | f + 1, 4, a, ts =>
    match ts with
    | Tok.mul :: r =>
      match parseL f 2 a r with
      | some (q, r2) => parseL f 4 (PyNum.mulP a q) r2
      | Option.none => Option.none
    | Tok.div :: r =>
      match parseL f 2 a r with
      | some (q, r2) =>
        if q.num = 0 then Option.none
        else parseL f 4 (PyNum.divP a q) r2
      | Option.none => Option.none
    | _ => some (a, ts)
  | _ + 1, _ + 5, _, _ => Option.none

/-- Model of the guarded `eval(result, trivial globals, trivial locals)`
call: evaluates an arithmetic expression string, `Option.none` on any
failure. -/
def pyEval (s : String) : Option PyNum :=
  match tokenize (s.data.length + 1) s.data with
  | Option.none => Option.none
  | some ts =>
    match parseL (4 * ts.length + 16) 0 (PyNum.ofInt 0) ts with
    | some (q, []) => some q
    | _ => Option.none

/-! ## Model of `datetime.strptime` / `datetime.strftime`

Only the directives used by date_format configurations (`%Y %m %d %H %M
%S`, plus `%%` and literal characters) are modelled, with the exact
digit-count/range alternations of CPython `_strptime.TimeRE`; an unknown
directive makes parsing fail, which is observably the same as the
`ValueError` CPython raises for it.  `datetime.strptime` requires the
whole input to be consumed and then validates the calendar date when
constructing the `datetime`; both are mirrored below. -/

structure PyDateTime where
  year : Nat := 1900
  month : Nat := 1
  day : Nat := 1
  hour : Nat := 0
  minute : Nat := 0
  second : Nat := 0
deriving DecidableEq

def isLeap (y : Nat) : Bool := y % 4 = 0 ∧ (y % 100 ≠ 0 ∨ y % 400 = 0)

def daysInMonth (y m : Nat) : Nat :=
  if m = 2 then (if isLeap y then 29 else 28)
  else if m = 4 ∨ m = 6 ∨ m = 9 ∨ m = 11 then 30
  else 31

/-- Parse a two-digit-or-one-digit field following a regex alternation
`twoOk`-guarded two-digit branch first (CPython regex alternation order),
then a one-digit branch guarded by `oneOk`. -/
def parse2or1 (twoOk : Nat → Bool) (oneOk : Nat → Bool) :
    List Char → Option (Nat × List Char)
  | c1 :: c2 :: r =>
    if c1.isDigit ∧ c2.isDigit ∧ twoOk (10 * digitVal c1 + digitVal c2) then
      some (10 * digitVal c1 + digitVal c2, r)
    else if c1.isDigit ∧ oneOk (digitVal c1) then some (digitVal c1, c2 :: r)
    else Option.none
  | [c1] =>
    if c1.isDigit ∧ oneOk (digitVal c1) then some (digitVal c1, []) else Option.none
  | [] => Option.none

def strptimeGo : Nat → List Char → List Char → PyDateTime → Option PyDateTime
  | 0, _, _, _ => Option.none
  | _ + 1, [], inp, d => if inp.isEmpty then some d else Option.none
  | f + 1, '%' :: spec :: fr, inp, d =>
    if spec = 'Y' then
      match inp with
      | a :: b :: c :: e :: r =>
        if a.isDigit ∧ b.isDigit ∧ c.isDigit ∧ e.isDigit then
          strptimeGo f fr r
            { d with year := digitsToNat [a, b, c, e] }
        else Option.none
      | _ => Option.none
    else if spec = 'm' then
      match parse2or1 (fun v => 1 ≤ v ∧ v ≤ 12) (fun v => 1 ≤ v) inp with
      | some (v, r) => strptimeGo f fr r { d with month := v }
      | Option.none => Option.none
    else if spec = 'd' then
      match parse2or1 (fun v => 1 ≤ v ∧ v ≤ 31) (fun v => 1 ≤ v) inp with
      | some (v, r) => strptimeGo f fr r { d with day := v }
      | Option.none => Option.none
    else if spec = 'H' then
      match parse2or1 (fun v => v ≤ 23) (fun _ => true) inp with
      | some (v, r) => strptimeGo f fr r { d with hour := v }
      | Option.none => Option.none
    else if spec = 'M' then
      match parse2or1 (fun v => v ≤ 59) (fun _ => true) inp with
      | some (v, r) => strptimeGo f fr r { d with minute := v }
      | Option.none => Option.none
    else if spec = 'S' then
      match parse2or1 (fun v => v ≤ 61) (fun _ => true) inp with
      | some (v, r) => strptimeGo f fr r { d with second := v }
      | Option.none => Option.none
    else if spec = '%' then
      match inp with
      | '%' :: r => strptimeGo f fr r d
      | _ => Option.none
    else Option.none
  | _ + 1, ['%'], _, _ => Option.none
  | f + 1, c :: fr, inp, d =>
    match inp with
    | i :: r => if i = c then strptimeGo f fr r d else Option.none
    | [] => Option.none

/-- Model of `datetime.strptime(s, fmt)`: `Option.none` where CPython
raises `ValueError` (no match, unconverted data, invalid calendar date,
out-of-range seconds, bad directive). -/
def strptime (s fmt : String) : Option PyDateTime :=
  match strptimeGo (fmt.data.length + s.data.length + 1) fmt.data s.data {} with
  | some d =>
    if 1 ≤ d.year ∧ d.day ≤ daysInMonth d.year d.month ∧ d.second ≤ 59 then
      some d
    else Option.none
  | Option.none => Option.none

def strftimeGo : Nat → List Char → PyDateTime → String
  | 0, _, _ => ""
  | _ + 1, [], _ => ""
  | f + 1, '%' :: spec :: fr, d =>
    (if spec = 'Y' then String.mk (padZeros (natStr d.year).data 4)
     else if spec = 'm' then String.mk (padZeros (natStr d.month).data 2)
     else if spec = 'd' then String.mk (padZeros (natStr d.day).data 2)
     else if spec = 'H' then String.mk (padZeros (natStr d.hour).data 2)
     else if spec = 'M' then String.mk (padZeros (natStr d.minute).data 2)
     else if spec = 'S' then String.mk (padZeros (natStr d.second).data 2)
     else if spec = '%' then "%"
     else String.mk ['%', spec]) ++ strftimeGo f fr d
  | _ + 1, [c], _ => String.mk [c]
  | f + 1, c :: fr, d => String.mk [c] ++ strftimeGo f fr d

/-- Model of `datetime.strftime(fmt)` for the modelled directives. -/
def strftime (d : PyDateTime) (fmt : String) : String :=
  strftimeGo (fmt.data.length + 1) fmt.data d

/-! ## Rows and configuration structures -/

/-- A CSV row as produced by `csv.DictReader`: an insertion-ordered map
from column name to cell value (a string, or `None` for a short row). -/
def Row := List (String × Val)

instance : DecidableEq Row := fun a b => List.hasDecEq a b

/-- Model of `row.get(k)`: the first binding of `k`, else Python `None`. -/
def rowGet (row : Row) (k : String) : Val :=
  match row.find? (fun p => p.1 = k) with
  | some p => p.2
  | Option.none => Val.none

/-- One entry of a `conditional` transform's `conditions` list, the dict
`{"if": c, "then": v}` or `{"else": v}`.  `ifCond` is `some c` when the
dict has an `"if"` key holding string `c`; `hasElse` records an `"else"`
key.  (`cond.get("then")` yields `None` when absent, hence the default.) -/
structure CondEntry where
  ifCond : Option String := Option.none
  thenVal : Val := Val.none
  hasElse : Bool := false
  elseVal : Val := Val.none
deriving DecidableEq

/-- The `transform_config` parameter bag: its scalar entries in insertion
order (this is also the lookup table for `lookup` transforms, including
the `_default` key), plus the `conditions` list for `conditional`. -/
structure TransformConfig where
  entries : List (String × Val) := []
  conditions : List CondEntry := []
deriving DecidableEq

/-- Model of `config.get(k)` distinguishing an absent key from a null
value (needed by the lookup branch's `in` test). -/
def cfgFind (cfg : TransformConfig) (k : String) : Option Val :=
  (cfg.entries.find? (fun p => p.1 = k)).map (fun p => p.2)

/-- Model of `config.get(k)` collapsing absent and null to Python `None`. -/
def cfgGet (cfg : TransformConfig) (k : String) : Val :=
  (cfgFind cfg k).getD Val.none

/-- Model of `config.get(k, dflt)` for keys the code uses as strings
(formats, expressions, conditions).  A present non-string value would
make CPython raise inside `transform_value`, converted there to a field
error; such malformed configurations are outside the model and collapse
to the default here. -/
def cfgStr (cfg : TransformConfig) (k : String) (dflt : String) : String :=
  match cfgFind cfg k with
  | some (Val.str s) => s
  | some _ => dflt
  | Option.none => dflt

/-- One `field_mappings` entry of an `ETLMapping.to_dict()` configuration
(see `converter_dashboard/models.py`: `destination_field` is a required
string, `source_field` optional, `transform_type` one of the eight kind
strings — kept as a raw string because `transform_value` falls back to
the source value for unrecognized kinds). -/
structure FieldMapping where
  destination_field : String
  source_field : Option String := Option.none
  transform_type : String := "direct"
  transform_config : TransformConfig := {}
deriving DecidableEq

/-- One `filter_rules` entry: a dict with optional `field`, `operator`,
`value` keys and a `values` list (absent modelled as the default). -/
structure FilterRule where
  field : Option String := Option.none
  operator : Option String := Option.none
  values : List String := []
  value : Option String := Option.none
deriving DecidableEq

/-- The state of a `DynamicTransformer`: `self.mapping.get("name")`,
`self.field_mappings` and `self.filter_rules`. -/
structure DynamicTransformer where
  name : Option String := Option.none
  field_mappings : List FieldMapping := []
  filter_rules : List FilterRule := []
deriving DecidableEq

/-! ## Condition Evaluator (`_evaluate_condition`)

The Python code matches the stripped condition against the regex
`(\w+)\s*(==|!=|in)\s*(.+)` with `re.match`.  The model reproduces the
regex with its backtracking: the greedy word is shortened until the rest
matches, and the greedy `\s*` before `(.+)` backs off so that `.`
(any char but newline) can still match at least one character. -/

def isWordChar (c : Char) : Bool := c.isAlphanum || c = '_'

def isQuoteChar (c : Char) : Bool := c = sqc || c = dqc

/-- Model of Python `value_str.strip(quote chars)`. -/
def stripQuotes (l : List Char) : List Char :=
  ((l.dropWhile isQuoteChar).reverse.dropWhile isQuoteChar).reverse

/-- The `(.+)` group inside a run of whitespace: the regex engine gives
back whitespace characters one at a time (latest split first) until `.`
can match. -/
def wsValue : List Char → Option (List Char)
  | [] => Option.none
  | c :: cs =>
    match wsValue cs with
    | some v => some v
    | Option.none =>
      if c = '\n' then Option.none
      else some ((c :: cs).takeWhile (fun x => x ≠ '\n'))

/-- Match `\s*(==|!=|in)\s*(.+)` against `rest`. -/
def condTail (rest : List Char) : Option (String × List Char) :=
  let r1 := rest.dropWhile Char.isWhitespace
  match
    (match r1 with
     | '=' :: '=' :: t => some ("==", t)
     | '!' :: '=' :: t => some ("!=", t)
     | 'i' :: 'n' :: t => some ("in", t)
     | _ => Option.none : Option (String × List Char)) with
  | Option.none => Option.none
  | some (op, t) =>
    let ws := t.takeWhile Char.isWhitespace
    let r2 := t.drop ws.length
    if !r2.isEmpty then
      some (op, r2.takeWhile (fun x => x ≠ '\n'))
    else
      match wsValue ws with
      | some v => some (op, v)
      | Option.none => Option.none

/-- Try word lengths `k, k-1, …, 1` (the regex engine's greedy `(\w+)`
with backtracking). -/
def condGo (cond : List Char) : Nat → Option (String × String × List Char)
  | 0 => Option.none
  | k + 1 =>
    match condTail (cond.drop (k + 1)) with
    | some (op, v) => some (String.mk (cond.take (k + 1)), op, v)
    | Option.none => condGo cond k

def condMatch (cond : List Char) : Option (String × String × List Char) :=
  condGo cond (cond.takeWhile isWordChar).length

/-- Model of `re.findall` with pattern quoted-chunk-single | quoted-chunk-double,
followed by the `v[0] or v[1]` collapse: the contents of every quoted
chunk, scanning left to right. -/
def findQuoted : Nat → List Char → List String
  | 0, _ => []
  | _ + 1, [] => []
  | f + 1, c :: cs =>
    if c = sqc ∧ cs.any (fun x => x = sqc) then
      let content := cs.takeWhile (fun x => x ≠ sqc)
      String.mk content :: findQuoted f (cs.drop (content.length + 1))
    else if c = dqc ∧ cs.any (fun x => x = dqc) then
      let content := cs.takeWhile (fun x => x ≠ dqc)
      String.mk content :: findQuoted f (cs.drop (content.length + 1))
    else findQuoted f cs

/-- Model of `DynamicTransformer._evaluate_condition`. -/
def evaluate_condition (row : Row) (condition : String) : Bool :=
  match condMatch (trimChars condition.data) with
  | Option.none => false
  | some (f, op, vchars) =>
    let rv := rowGet row f
    if op = "==" then pyStr rv = String.mk (stripQuotes vchars)
    else if op = "!=" then pyStr rv ≠ String.mk (stripQuotes vchars)
    else if op = "in" then
      (findQuoted (vchars.length + 1) vchars).contains (pyStr rv)
    else false

/-! ## Filter Engine (`should_skip`) -/

/-- Python `row_value == value` where `row_value` came from `row.get` and
`value` from `rule.get("value")` (a string or `None`). -/
def valEqOptStr (rv : Val) (v : Option String) : Bool :=
  match rv, v with
  | Val.none, Option.none => true
  | Val.str s, some w => s = w
  | _, _ => false

def ruleMatches (row : Row) (rule : FilterRule) : Bool :=
  let rv : Val :=
    match rule.field with
    | some f => rowGet row f
    | Option.none => Val.none
  match rule.operator with
  | some op =>
    if op = "equals" then valEqOptStr rv rule.value
    else if op = "not_equals" then !valEqOptStr rv rule.value
    else if op = "in" then
      (match rv with | Val.str s => rule.values.contains s | _ => false)
    else if op = "not_in" then
      !(match rv with | Val.str s => rule.values.contains s | _ => false)
    else if op = "is_empty" then !truthy rv
    else if op = "is_not_empty" then truthy rv
    else if op = "contains" then
      (match rule.value with
       | some v => !v.data.isEmpty && strIsSub (pyStr rv) v
       | Option.none => false)
    else false
  | Option.none => false

/-- Model of `DynamicTransformer.should_skip`: the loop returns `True` on
the first matching rule and `False` after the loop, i.e. whether any rule
matches. -/
def should_skip (rules : List FilterRule) (row : Row) : Bool :=
  rules.any (ruleMatches row)

/-! ## Formula Evaluator (`_evaluate_formula`) -/

/-- The `num_value` → `str(num_value)` step for one row value:
`float(value) if value else 0` stringified, with `ValueError` caught as
`"0"`.  A falsy value gives the *int* `0`, printed without a decimal
point, exactly as in Python. -/
def numSub (v : Val) : String :=
  if truthy v then
    match v with
    | Val.str s => (match pyFloat s with | some q => floatRepr q | Option.none => "0")
    | Val.num q => floatRepr q
    | Val.none => "0"
  else "0"

/-- The substitution loop of `_evaluate_formula`: iterate the row's items
in insertion order; whenever the field name occurs in the current string,
replace every occurrence by the stringified numeric value. -/
def substituteFields (row : Row) (expression : String) : String :=
  row.foldl
    (fun result fv =>
      if strIsSub result fv.1 then strReplace result fv.1 (numSub fv.2)
      else result)
    expression

/-- Model of `DynamicTransformer._evaluate_formula`. -/
def evaluate_formula (row : Row) (expression : String) : Option PyNum :=
  pyEval (substituteFields row expression)

/-! ## Field Transformer (`transform_value`) -/

/-- Represents an error that occurred while processing a row
(`RowError` dataclass). -/
structure RowError where
  line_number : Nat
  field : String
  error_message : String
  source_value : Val := Val.none
  row_data : Row := []
deriving DecidableEq

/-- The `source_value` computation at the top of `transform_value`:
`row.get(source_field) if source_field else None` (an empty-string
`source_field` is falsy). -/
def sourceValue (row : Row) (fm : FieldMapping) : Val :=
  match fm.source_field with
  | some sf => if sf.data.isEmpty then Val.none else rowGet row sf
  | Option.none => Val.none

/-- Lookup of a row value among the (string) keys of the config dict:
Python `lookup_table.get(source_value, …)` / `source_value in
lookup_table`; a `None` or float source value never equals a string key. -/
def tableFind (entries : List (String × Val)) (v : Val) : Option Val :=
  (entries.find? (fun p => v = Val.str p.1)).map (fun p => p.2)

/-- Model of `DynamicTransformer.transform_value`.  The trailing
`except Exception` of the Python code is unreachable in the model: every
branch below is total for well-typed configurations (the comment on
`cfgStr` notes the malformed-config cases folded into defaults). -/
def transform_value (row : Row) (fm : FieldMapping) (line_number : Nat) :
    Val × Option RowError :=
  let transform_type := fm.transform_type
  let dest_field := fm.destination_field
  let config := fm.transform_config
  let source_value := sourceValue row fm
  if transform_type = "direct" then (source_value, Option.none)
  else if transform_type = "constant" then (cfgGet config "value", Option.none)
  else if transform_type = "date_format" then
    if !truthy source_value then (Val.none, Option.none)
    else
      let input_fmt := cfgStr config "input_format" "%Y-%m-%dT%H:%M:%S"
      let output_fmt := cfgStr config "output_format" "%Y-%m-%d"
      -- `if "T" in str(source_value) and "Z" in str(source_value):
      --    source_value = source_value.replace("Z", "")` — note that this
      -- rebinds source_value, and removes every Z, not only a trailing one.
      let s0 := pyStr source_value
      let sv2 : Val :=
        if s0.data.contains 'T' && s0.data.contains 'Z' then
          Val.str (String.mk (s0.data.filter (fun c => c ≠ 'Z')))
        else source_value
      -- `str(source_value).split(".")[0]`: everything before the first dot.
      let core := String.mk ((pyStr sv2).data.takeWhile (fun c => c ≠ '.'))
      match strptime core input_fmt with
      | some dt => (Val.str (strftime dt output_fmt), Option.none)
      | Option.none =>
        (sv2, some { line_number := line_number, field := dest_field,
                     error_message := "Date format error",
                     source_value := sv2, row_data := row })
  else if transform_type = "lookup" then
    let dflt := cfgGet config "_default"
    let result := (tableFind config.entries source_value).getD dflt
    if result = Val.none ∧ source_value ≠ Val.none ∧
        tableFind config.entries source_value = Option.none then
      (result, some { line_number := line_number, field := dest_field,
                      error_message := "Lookup value not found in mapping table",
                      source_value := source_value, row_data := row })
    else (result, Option.none)
  else if transform_type = "suffix" then
    if !truthy source_value then (Val.none, Option.none)
    else
      let sfx := (match cfgFind config "value" with
        | some v => pyStr v
        | Option.none => "")
      let condition := cfgGet config "condition"
      if truthy condition ∧
          !(match condition with
            | Val.str c => evaluate_condition row c
            | _ => false) then
        (source_value, Option.none)
      else (Val.str (pyStr source_value ++ sfx), Option.none)
  else if transform_type = "prefix" then
    if !truthy source_value then (Val.none, Option.none)
    else
      let pfx := (match cfgFind config "value" with
        | some v => pyStr v
        | Option.none => "")
      let condition := cfgGet config "condition"
      if truthy condition ∧
          !(match condition with
            | Val.str c => evaluate_condition row c
            | _ => false) then
        (source_value, Option.none)
      else (Val.str (pfx ++ pyStr source_value), Option.none)
  else if transform_type = "formula" then
    let expression := cfgStr config "expression" ""
    match evaluate_formula row expression with
    | Option.none =>
      (Val.none, some { line_number := line_number, field := dest_field,
                        error_message := "Formula evaluation failed: " ++ expression,
                        source_value := source_value, row_data := row })
    | some q => (Val.num q, Option.none)
  else if transform_type = "conditional" then
    condLoop config.conditions
  else (source_value, Option.none)
where
  condLoop : List CondEntry → Val × Option RowError
    | [] => (Val.none, Option.none)
    | ce :: rest =>
      match ce.ifCond with
      | some c =>
        if evaluate_condition row c then (ce.thenVal, Option.none)
        else condLoop rest
      | Option.none =>
        if ce.hasElse then (ce.elseVal, Option.none) else condLoop rest

/-! ## Row Processor (`transform_row`) -/

/-- Python dict assignment `result[dest_field] = value`: overwrite the
existing binding in place, else append. -/
def upsert (l : List (String × Val)) (k : String) (v : Val) : List (String × Val) :=
  if l.any (fun p => p.1 = k) then
    l.map (fun p => if p.1 = k then (k, v) else p)
  else l ++ [(k, v)]

/-- One iteration of the `for field_mapping in self.field_mappings` loop
of `transform_row`: store the transformed value under the destination
field and collect the error, if any. -/
def trStep (row : Row) (line_number : Nat)
    (acc : List (String × Val) × List RowError) (fm : FieldMapping) :
    List (String × Val) × List RowError :=
  let ve := transform_value row fm line_number
  (upsert acc.1 fm.destination_field ve.1,
   match ve.2 with
   | some e => acc.2 ++ [e]
   | Option.none => acc.2)

/-- Model of `DynamicTransformer.transform_row`: `Option.none` stands for
the Python `None` returned for a filtered-out row; otherwise the output
dict (insertion-ordered) plus the collected field errors. -/
def transform_row (t : DynamicTransformer) (row : Row) (line_number : Nat) :
    Option (List (String × Val)) × List RowError :=
  if should_skip t.filter_rules row then (Option.none, [])
  else
    let acc := t.field_mappings.foldl (trStep row line_number) ([], [])
    (some acc.1, acc.2)

/-! ## File Processor (`_process_file`, `validate_file`, `transform_file`)

File-system effects are made explicit: reading the input is an
`Except String (List Row)` (the `.error` case models an exception while
opening/parsing the stream, caught by the outer `try`), and writing the
output is an `Except String Unit` (the `.error` case models an exception
from `mkdir`/`open("w")`/`writerows` — this part of the Python code is
*not* inside any `try`).  The whole call returns
`Except String TransformResult`: an `.error` result models a Python
exception escaping to the caller.

The per-row `try` around `transform_row` is unreachable in the model:
`transform_row` is total for well-typed configurations, so the
whole-row `field="*"` error branch of the Python loop has no counterpart
here. -/

/-- Result of a file transformation (the `TransformResult` dataclass). -/
structure TransformResult where
  success_count : Nat := 0
  skipped_count : Nat := 0
  error_count : Nat := 0
  errors : List RowError := []
  log_messages : List String := []
deriving DecidableEq

/-- `TransformResult.add_log` (the process-wide logger side effect is not
part of the observable result). -/
def addLog (r : TransformResult) (m : String) : TransformResult :=
  { r with log_messages := r.log_messages ++ [m] }

/-- `TransformResult.add_error`: appends the error and bumps
`error_count`; it does not touch `log_messages`. -/
def addError (r : TransformResult) (e : RowError) : TransformResult :=
  { r with errors := r.errors ++ [e], error_count := r.error_count + 1 }

/-- The accumulating state of one `_process_file` pass: the result object
plus the `results` list buffering the output rows. -/
structure RunState where
  result : TransformResult
  buffer : List (List (String × Val))
deriving DecidableEq

/-- The body of the `for line_number, row in enumerate(reader, start=2)`
loop.  `if transformed:` is Python dict truthiness: `None` and the empty
dict both take the skipped branch. -/
def stepRow (t : DynamicTransformer) (dry_run : Bool) (line_number : Nat)
    (row : Row) (st : RunState) : RunState :=
  match transform_row t row line_number with
  | (some out, row_errors) =>
    let res := row_errors.foldl addError st.result
    if !out.isEmpty then
      if row_errors.isEmpty then
        { result := addLog { res with success_count := res.success_count + 1 }
            ("Line " ++ natStr line_number ++ ": " ++
              (if dry_run then "Valid" else "Transformed successfully")),
          buffer := st.buffer ++ [out] }
      else
        { result := addLog res
            ("Line " ++ natStr line_number ++ ": Has " ++
              natStr row_errors.length ++ " error(s)"),
          buffer := st.buffer ++ [out] }
    else
      { result := addLog { res with skipped_count := res.skipped_count + 1 }
          ("Line " ++ natStr line_number ++ ": Skipped (filtered out)"),
        buffer := st.buffer }
  | (Option.none, row_errors) =>
    let res := row_errors.foldl addError st.result
    { result := addLog { res with skipped_count := res.skipped_count + 1 }
        ("Line " ++ natStr line_number ++ ": Skipped (filtered out)"),
      buffer := st.buffer }

def processRows (t : DynamicTransformer) (dry_run : Bool) :
    Nat → List Row → RunState → RunState
  | _, [], st => st
  | ln, r :: rs, st => processRows t dry_run (ln + 1) rs (stepRow t dry_run ln r st)

/-- The `Source columns: …` log line: `csv.DictReader.fieldnames` printed
Python-style.  The read model carries no separate header, so the first
row's keys stand in for it (`None` for an empty table). -/
def columnsLog (rows : List Row) : String :=
  match rows with
  | [] => "Source columns: None"
  | r :: _ =>
    "Source columns: [" ++
      String.intercalate ", "
        (r.map (fun p => String.mk (sqc :: p.1.data ++ [sqc]))) ++ "]"

/-- The result object as it stands after the three opening `add_log`
calls of `_process_file`. -/
def initResult (t : DynamicTransformer) (inputName : String) (dry_run : Bool) :
    TransformResult :=
  let mode := if dry_run then "Validating" else "Transforming"
  addLog (addLog (addLog {} (mode ++ " " ++ inputName))
      ("Using mapping: " ++ t.name.getD "Unknown"))
    ("Field mappings: " ++ natStr t.field_mappings.length ++
      ", Filter rules: " ++ natStr t.filter_rules.length)

/-- Model of `DynamicTransformer._process_file`. -/
def process_file (t : DynamicTransformer) (inputName : String)
    (readRes : Except String (List Row)) (output : Option String)
    (dry_run : Bool) (fail_on_error : Bool) (write : Except String Unit) :
    Except String TransformResult :=
  let r0 := initResult t inputName dry_run
  match readRes with
  | Except.error e =>
    -- `except Exception: result.add_log(...); return result` — note the
    -- early return: the final summary line is not appended on this path.
    Except.ok (addLog r0 ("ERROR: Failed to read input file: " ++ e))
  | Except.ok rows =>
    let r1 := addLog r0 (columnsLog rows)
    let st := processRows t dry_run 2 rows ⟨r1, []⟩
    -- `if not dry_run and output_path and results:` — a `Path` is always
    -- truthy, so the middle conjunct is `output.isSome`.
    if !dry_run && output.isSome && !st.buffer.isEmpty then
      if 0 < st.result.error_count ∧ fail_on_error then
        finish dry_run (addLog st.result
          ("OUTPUT SKIPPED: " ++ natStr st.result.error_count ++
            " errors found. Fix errors before converting."))
      else
        match write with
        | Except.error e => Except.error e   -- uncaught: escapes the call
        | Except.ok _ =>
          finish dry_run (addLog st.result
            ("Output written to " ++ output.getD ""))
    else finish dry_run st.result
where
  finish (dry_run : Bool) (r : TransformResult) : Except String TransformResult :=
    let status := if dry_run then "Validation" else "Transformation"
    Except.ok (addLog r
      (status ++ " complete: " ++ natStr r.success_count ++ " valid, " ++
        natStr r.skipped_count ++ " skipped, " ++ natStr r.error_count ++
        " errors"))

/-- Model of `DynamicTransformer.validate_file` (dry-run: no output path,
`fail_on_error` keeps its default `True`; the write effect is never
reached and is passed as a success dummy). -/
def validate_file (t : DynamicTransformer) (inputName : String)
    (readRes : Except String (List Row)) : Except String TransformResult :=
  process_file t inputName readRes Option.none true true (Except.ok ())

/-- Model of `DynamicTransformer.transform_file`. -/
def transform_file (t : DynamicTransformer) (inputName : String)
    (readRes : Except String (List Row)) (outputName : String)
    (fail_on_error : Bool) (write : Except String Unit) :
    Except String TransformResult :=
  process_file t inputName readRes (some outputName) false fail_on_error write

/-! ## Definitions used to state the claims -/

/-- Projection for stating theorems about a pass that is known not to
raise. -/
def runOk (x : Except String TransformResult) : TransformResult :=
  match x with
  | Except.ok r => r
  | Except.error _ => {}

def isOkE (x : Except String TransformResult) : Bool :=
  match x with
  | Except.ok _ => true
  | Except.error _ => false

/-- Does some log line start with the given text? -/
def hasLogStarting (r : TransformResult) (p : String) : Bool :=
  r.log_messages.any (fun m => strStarts m p)

/-- The number of input rows that produce at least one `RowError` when
processed at consecutive line numbers starting at `ln`. -/
def erroredRows (t : DynamicTransformer) : Nat → List Row → Nat
  | _, [] => 0
  | ln, r :: rs =>
    (if (transform_row t r ln).2.isEmpty then 0 else 1) + erroredRows t (ln + 1) rs

/-- The number of rows counted as successes: a truthy output dict and no
field errors. -/
def cleanRows (t : DynamicTransformer) : Nat → List Row → Nat
  | _, [] => 0
  | ln, r :: rs =>
    (match (transform_row t r ln).1 with
     | some out => if !out.isEmpty ∧ (transform_row t r ln).2.isEmpty then 1 else 0
     | Option.none => 0) + cleanRows t (ln + 1) rs

/-- The number of rows taking the skipped branch (filtered out, or an
empty — falsy — output dict). -/
def skippedRows (t : DynamicTransformer) : Nat → List Row → Nat
  | _, [] => 0
  | ln, r :: rs =>
    (match (transform_row t r ln).1 with
     | some out => if out.isEmpty then 1 else 0
     | Option.none => 1) + skippedRows t (ln + 1) rs

/-- The output rows buffered by a pass over `rows` starting at line `ln`
(the final contents of the `results` list). -/
def bufferedRows (t : DynamicTransformer) : Nat → List Row → List (List (String × Val))
  | _, [] => []
  | ln, r :: rs =>
    (match (transform_row t r ln).1 with
     | some out => if !out.isEmpty then [out] else []
     | Option.none => []) ++ bufferedRows t (ln + 1) rs

/-- The total number of `RowError`s produced by a pass (the final
`error_count`). -/
def totalErrors (t : DynamicTransformer) : Nat → List Row → Nat
  | _, [] => 0
  | ln, r :: rs => (transform_row t r ln).2.length + totalErrors t (ln + 1) rs

/-! ## Concrete configurations and rows used as claim instances -/

/-- The spec's lookup example: `{"BUY": "BUY", "_default": null}`. -/
def fmLookupNull : FieldMapping :=
  { destination_field := "type", source_field := some "Type",
    transform_type := "lookup",
    transform_config := { entries := [("BUY", Val.str "BUY"), ("_default", Val.none)] } }

/-- The same lookup but with a non-null default: `{"BUY": "BUY",
"_default": "OTHER"}`. -/
def fmLookupOther : FieldMapping :=
  { destination_field := "type", source_field := some "Type",
    transform_type := "lookup",
    transform_config := { entries := [("BUY", Val.str "BUY"), ("_default", Val.str "OTHER")] } }

def rowSell : Row := [("Type", Val.str "SELL")]

/-- The spec's formula example: expression `quantity * price`. -/
def fmFormulaQP : FieldMapping :=
  { destination_field := "total", transform_type := "formula",
    transform_config := { entries := [("expression", Val.str "quantity * price")] } }

/-- A formula whose expression is the single field `price_total`, for the
substring-collision scenario with a `price` column. -/
def fmFormulaPT : FieldMapping :=
  { destination_field := "t", transform_type := "formula",
    transform_config := { entries := [("expression", Val.str "price_total")] } }

/-- A `date_format` mapping using both default formats. -/
def fmDateDefault : FieldMapping :=
  { destination_field := "date", source_field := some "Date",
    transform_type := "date_format" }

/-- A filter rule skipping rows whose `Type` equals `DEPOSIT`. -/
def ruleEqDeposit : FilterRule :=
  { field := some "Type", operator := some "equals", value := some "DEPOSIT" }

/-- A transformer with one date mapping and the `DEPOSIT` filter. -/
def tDateFilter : DynamicTransformer :=
  { name := some "m1", field_mappings := [fmDateDefault],
    filter_rules := [ruleEqDeposit] }

/-- A transformer with a single `direct` mapping. -/
def tDirect : DynamicTransformer :=
  { field_mappings := [{ destination_field := "a", source_field := some "A" }] }

/-- A transformer with zero field mappings and zero filter rules. -/
def tEmptyMappings : DynamicTransformer := {}

def rowDeposit : Row := [("Type", Val.str "DEPOSIT"), ("Date", Val.str "2020-02-03T09:18:39")]

def rowBadDate : Row := [("Type", Val.str "BUY"), ("Date", Val.str "bad-date")]

/-! ## Supporting lemmas -/

theorem upsert_ne_nil (l : List (String × Val)) (k : String) (v : Val) :
    upsert l k v ≠ [] := by
  unfold upsert
  split
  case isTrue h =>
    cases l with
    | nil => simp at h
    | cons a l => simp
  case isFalse h => simp

theorem trStep_fst_ne_nil (row : Row) (ln : Nat)
    (acc : List (String × Val) × List RowError) (fm : FieldMapping) :
    (trStep row ln acc fm).1 ≠ [] := by
  unfold trStep
  exact upsert_ne_nil _ _ _

theorem foldl_trStep_ne_nil (row : Row) (ln : Nat) :
    ∀ (fms : List FieldMapping) (acc : List (String × Val) × List RowError),
      acc.1 ≠ [] → (fms.foldl (trStep row ln) acc).1 ≠ [] := by
  intro fms
  induction fms with
  | nil => intro acc h; simpa using h
  | cons fm rest ih =>
    intro acc _
    simp only [List.foldl_cons]
    exact ih _ (trStep_fst_ne_nil row ln acc fm)

/-- A row with a nonempty mapping list always assembles a nonempty
(truthy) output dict. -/
theorem transform_row_out_ne_nil (t : DynamicTransformer) (row : Row) (ln : Nat)
    (hfm : t.field_mappings ≠ []) (hsk : should_skip t.filter_rules row = false) :
    ∃ out, (transform_row t row ln).1 = some out ∧ out ≠ [] := by
  unfold transform_row
  rw [hsk]
  simp only [Bool.false_eq_true, if_false]
  refine ⟨_, rfl, ?_⟩
  cases hf : t.field_mappings with
  | nil => exact absurd hf hfm
  | cons fm rest =>
    simp only [List.foldl_cons]
    exact foldl_trStep_ne_nil row ln rest _ (trStep_fst_ne_nil row ln ([], []) fm)

/-- A filtered-out row yields `(None, [])`. -/
theorem transform_row_skip (t : DynamicTransformer) (row : Row) (ln : Nat)
    (h : should_skip t.filter_rules row = true) :
    transform_row t row ln = (Option.none, []) := by
  unfold transform_row
  rw [h]
  simp

/-- With no field mappings, a non-filtered row yields the empty output
dict and no errors. -/
theorem transform_row_no_mappings (t : DynamicTransformer) (row : Row) (ln : Nat)
    (hfm : t.field_mappings = []) (hsk : should_skip t.filter_rules row = false) :
    transform_row t row ln = (some [], []) := by
  unfold transform_row
  rw [hsk, hfm]
  simp

/-- A row that produced at least one error produced a truthy output dict
(errors only arise from field mappings, which also populate the dict). -/
theorem transform_row_errors_imp_out (t : DynamicTransformer) (row : Row) (ln : Nat)
    (h : (transform_row t row ln).2 ≠ []) :
    ∃ out, (transform_row t row ln).1 = some out ∧ out ≠ [] := by
  by_cases hsk : should_skip t.filter_rules row = true
  · rw [transform_row_skip t row ln hsk] at h
    simp at h
  · have hsk2 : should_skip t.filter_rules row = false := by
      revert hsk; cases should_skip t.filter_rules row <;> simp
    by_cases hfm : t.field_mappings = []
    · rw [transform_row_no_mappings t row ln hfm hsk2] at h
      simp at h
    · exact transform_row_out_ne_nil t row ln hfm hsk2

theorem foldl_addError_spec (es : List RowError) : ∀ (r : TransformResult),
    (es.foldl addError r).success_count = r.success_count ∧
    (es.foldl addError r).skipped_count = r.skipped_count ∧
    (es.foldl addError r).error_count = r.error_count + es.length ∧
    (es.foldl addError r).log_messages = r.log_messages := by
  induction es with
  | nil => intro r; simp
  | cons e rest ih =>
    intro r
    simp only [List.foldl_cons]
    obtain ⟨h1, h2, h3, h4⟩ := ih (addError r e)
    refine ⟨?_, ?_, ?_, ?_⟩
    · rw [h1]; rfl
    · rw [h2]; rfl
    · rw [h3]
      show r.error_count + 1 + rest.length = r.error_count + (rest.length + 1)
      omega
    · rw [h4]; rfl

/-- A log line added by the row loop (it starts with `Line `) cannot be
mistaken for the output-written or output-skipped lines. -/
theorem line_log_not_out (m : String) (h : strStarts m "Line " = true) :
    strStarts m "Output written to" = false ∧ strStarts m "OUTPUT SKIPPED" = false := by
  cases hd : m.data with
  | nil =>
    have h2 : strStarts m "Line " = false := by
      unfold strStarts; rw [hd]; rfl
    rw [h] at h2
    simp at h2
  | cons c cs =>
    have h2 : (c = 'L' && listStartsP "ine ".data cs) = true := by
      unfold strStarts at h; rw [hd] at h; exact h
    have hc : c = 'L' := of_decide_eq_true ((Bool.and_eq_true _ _).mp h2).1
    subst hc
    constructor
    · unfold strStarts; rw [hd]; rfl
    · unfold strStarts; rw [hd]; rfl

/-- The effect of one loop iteration on the accumulated state, expressed
through the per-claim counting functions evaluated on the one-row list. -/
theorem stepRow_effect (t : DynamicTransformer) (dry : Bool) (ln : Nat)
    (row : Row) (st : RunState) :
    (stepRow t dry ln row st).result.success_count
        = st.result.success_count + cleanRows t ln [row] ∧
    (stepRow t dry ln row st).result.skipped_count
        = st.result.skipped_count + skippedRows t ln [row] ∧
    (stepRow t dry ln row st).result.error_count
        = st.result.error_count + totalErrors t ln [row] ∧
    (stepRow t dry ln row st).buffer = st.buffer ++ bufferedRows t ln [row] ∧
    ∃ m, (stepRow t dry ln row st).result.log_messages
        = st.result.log_messages ++ [m] ∧ strStarts m "Line " = true := by
  rcases htr : transform_row t row ln with ⟨o, es⟩
  obtain ⟨f1, f2, f3, f4⟩ := foldl_addError_spec es st.result
  cases o with
  | none =>
    simp only [stepRow, htr, cleanRows, skippedRows, totalErrors, bufferedRows,
      addLog, htr]
    refine ⟨?_, ?_, ?_, ?_, ?_⟩
    · simp [f1]
    · simp [f2]
    · simp [f3]
    · simp
    · exact ⟨"Line " ++ natStr ln ++ ": Skipped (filtered out)", by simp [f4], rfl⟩
  | some out =>
    by_cases hout : out.isEmpty
    · have hout2 : (!out.isEmpty) = false := by simp [hout]
      simp only [stepRow, htr, hout2, if_false, cleanRows, skippedRows,
        totalErrors, bufferedRows, addLog]
      refine ⟨?_, ?_, ?_, ?_, ?_⟩
      · simp [f1, hout]
      · simp [f2, hout]
      · simp [f3]
      · simp [hout]
      · exact ⟨"Line " ++ natStr ln ++ ": Skipped (filtered out)", by simp [f4], rfl⟩
    · have hout2 : (!out.isEmpty) = true := by simp [hout]
      by_cases hes : es.isEmpty
      · have hesnil : es = [] := by simpa [List.isEmpty_iff] using hes
        simp only [stepRow, htr, hout2, if_true, hes, cleanRows, skippedRows,
          totalErrors, bufferedRows, addLog]
        refine ⟨?_, ?_, ?_, ?_, ?_⟩
        · simp [f1, hout, hesnil]
        · simp [f2, hout]
        · simp [f3, hesnil]
        · simp [hout]
        · exact ⟨("Line " ++ natStr ln ++ ": " ++ (if dry = true then "Valid" else "Transformed successfully")), by simp [f4], rfl⟩
      · have hes2 : es.isEmpty = false := by simp [List.isEmpty_iff] at hes ⊢; exact hes
        simp only [stepRow, htr, hout2, if_true, hes2, Bool.false_eq_true,
          if_false, cleanRows, skippedRows, totalErrors, bufferedRows, addLog]
        refine ⟨?_, ?_, ?_, ?_, ?_⟩
        · simp [f1, hout, hes2]
        · simp [f2, hout]
        · simp [f3]
        · simp [hout]
        · exact ⟨("Line " ++ natStr ln ++ ": Has " ++ natStr es.length ++ " error(s)"), by simp [f4], rfl⟩

/-- Cumulative effect of the whole row loop. -/
theorem processRows_master (t : DynamicTransformer) (dry : Bool) :
    ∀ (rows : List Row) (ln : Nat) (st : RunState),
      (processRows t dry ln rows st).result.success_count
          = st.result.success_count + cleanRows t ln rows ∧
      (processRows t dry ln rows st).result.skipped_count
          = st.result.skipped_count + skippedRows t ln rows ∧
      (processRows t dry ln rows st).result.error_count
          = st.result.error_count + totalErrors t ln rows ∧
      (processRows t dry ln rows st).buffer = st.buffer ++ bufferedRows t ln rows ∧
      ∀ m, m ∈ (processRows t dry ln rows st).result.log_messages →
          m ∈ st.result.log_messages ∨ strStarts m "Line " = true := by
  intro rows
  induction rows with
  | nil =>
    intro ln st
    simp only [processRows, cleanRows, skippedRows, totalErrors, bufferedRows]
    refine ⟨by omega, by omega, by omega, by simp, fun m hm => Or.inl hm⟩
  | cons r rs ih =>
    intro ln st
    obtain ⟨s1, s2, s3, s4, s5⟩ := stepRow_effect t dry ln r st
    obtain ⟨i1, i2, i3, i4, i5⟩ := ih (ln + 1) (stepRow t dry ln r st)
    obtain ⟨m, hm, hmline⟩ := s5
    refine ⟨?_, ?_, ?_, ?_, ?_⟩
    · rw [show processRows t dry ln (r :: rs) st
          = processRows t dry (ln + 1) rs (stepRow t dry ln r st) from rfl,
        i1, s1]
      simp [cleanRows]
      omega
    · rw [show processRows t dry ln (r :: rs) st
          = processRows t dry (ln + 1) rs (stepRow t dry ln r st) from rfl,
        i2, s2]
      simp [skippedRows]
      omega
    · rw [show processRows t dry ln (r :: rs) st
          = processRows t dry (ln + 1) rs (stepRow t dry ln r st) from rfl,
        i3, s3]
      simp [totalErrors]
      omega
    · rw [show processRows t dry ln (r :: rs) st
          = processRows t dry (ln + 1) rs (stepRow t dry ln r st) from rfl,
        i4, s4]
      simp [bufferedRows]
    · intro x hx
      rw [show processRows t dry ln (r :: rs) st
          = processRows t dry (ln + 1) rs (stepRow t dry ln r st) from rfl] at hx
      rcases i5 x hx with hmem | hline
      · rw [hm] at hmem
        rcases List.mem_append.mp hmem with h | h
        · exact Or.inl h
        · simp at h
          subst h
          exact Or.inr hmline
      · exact Or.inr hline

/-- A row whose output is `None` (filtered out) produced no errors. -/
theorem transform_row_none_no_errors (t : DynamicTransformer) (row : Row) (ln : Nat)
    (h : (transform_row t row ln).1 = Option.none) :
    (transform_row t row ln).2 = [] := by
  by_cases hsk : should_skip t.filter_rules row = true
  · rw [transform_row_skip t row ln hsk]
  · exfalso
    unfold transform_row at h
    rw [if_neg hsk] at h
    simp at h

/-- A row whose output is the empty (falsy) dict produced no errors. -/
theorem transform_row_empty_no_errors (t : DynamicTransformer) (row : Row) (ln : Nat)
    (h : (transform_row t row ln).1 = some []) :
    (transform_row t row ln).2 = [] := by
  by_cases hsk : should_skip t.filter_rules row = true
  · rw [transform_row_skip t row ln hsk] at h
    simp at h
  · unfold transform_row at h ⊢
    rw [if_neg hsk] at h ⊢
    cases hf : t.field_mappings with
    | nil => rfl
    | cons fm rest =>
      exfalso
      rw [hf] at h
      simp only [List.foldl_cons, Option.some.injEq] at h
      exact foldl_trStep_ne_nil row ln rest _ (trStep_fst_ne_nil row ln ([], []) fm) h

/-- Every processed row falls in exactly one of the success / skipped /
errored classes. -/
theorem class_partition (t : DynamicTransformer) :
    ∀ (rows : List Row) (ln : Nat),
      cleanRows t ln rows + skippedRows t ln rows + erroredRows t ln rows
        = rows.length := by
  intro rows
  induction rows with
  | nil => intro ln; simp [cleanRows, skippedRows, erroredRows]
  | cons r rs ih =>
    intro ln
    have hrec := ih (ln + 1)
    simp only [cleanRows, skippedRows, erroredRows, List.length_cons]
    rcases htr : transform_row t r ln with ⟨o, es⟩
    cases o with
    | none =>
      have hes : es = [] := by
        have := transform_row_none_no_errors t r ln (by rw [htr])
        rw [htr] at this; exact this
      subst hes
      simp [htr]
      omega
    | some out =>
      by_cases hout : out.isEmpty
      · have houtnil : out = [] := by simpa [List.isEmpty_iff] using hout
        subst houtnil
        have hes : es = [] := by
          have := transform_row_empty_no_errors t r ln (by rw [htr])
          rw [htr] at this; exact this
        subst hes
        simp [htr]
        omega
      · by_cases hes : es.isEmpty
        · have hesnil : es = [] := by simpa [List.isEmpty_iff] using hes
          subst hesnil
          simp [htr, hout]
          omega
        · have hesne : ¬es = [] := by simpa [List.isEmpty_iff] using hes
          simp [htr, hout, hesne]
          omega

/-- If the pass produced any error, the output buffer is nonempty:
errors only arise from field mappings, which also buffer the row. -/
theorem totalErrors_pos_buffer (t : DynamicTransformer) :
    ∀ (rows : List Row) (ln : Nat),
      totalErrors t ln rows ≠ 0 → bufferedRows t ln rows ≠ [] := by
  intro rows
  induction rows with
  | nil => intro ln h; simp [totalErrors] at h
  | cons r rs ih =>
    intro ln h
    simp only [totalErrors] at h
    simp only [bufferedRows]
    by_cases hes : (transform_row t r ln).2 = []
    · have hrec : totalErrors t (ln + 1) rs ≠ 0 := by
        rw [hes] at h; simpa using h
      have := ih (ln + 1) hrec
      intro hcontra
      exact this (List.append_eq_nil.mp hcontra).2
    · obtain ⟨out, hout, houtne⟩ := transform_row_errors_imp_out t r ln hes
      rw [hout]
      have hne : (!out.isEmpty) = true := by
        simp [List.isEmpty_iff]; exact houtne
      simp [hne]

theorem addLog_success (r : TransformResult) (m : String) :
    (addLog r m).success_count = r.success_count := rfl

theorem addLog_skipped (r : TransformResult) (m : String) :
    (addLog r m).skipped_count = r.skipped_count := rfl

theorem addLog_error (r : TransformResult) (m : String) :
    (addLog r m).error_count = r.error_count := rfl

theorem runOk_ok (r : TransformResult) : runOk (Except.ok r) = r := rfl

theorem hasLogStarting_addLog (r : TransformResult) (m p : String) :
    hasLogStarting (addLog r m) p = (hasLogStarting r p || strStarts m p) := by
  simp [hasLogStarting, addLog]

/-- None of the opening log lines can be mistaken for the output-written
or output-skipped lines. -/
theorem initLogs_benign (t : DynamicTransformer) (inName : String) (dry : Bool)
    (rows : List Row) :
    ∀ m ∈ (addLog (initResult t inName dry) (columnsLog rows)).log_messages,
      strStarts m "Output written to" = false ∧
      strStarts m "OUTPUT SKIPPED" = false := by
  intro m hm
  have hlogs : (addLog (initResult t inName dry) (columnsLog rows)).log_messages
      = [(if dry then "Validating" else "Transforming") ++ " " ++ inName,
         "Using mapping: " ++ t.name.getD "Unknown",
         "Field mappings: " ++ natStr t.field_mappings.length ++
           ", Filter rules: " ++ natStr t.filter_rules.length,
         columnsLog rows] := rfl
  rw [hlogs] at hm
  have hm2 := hm
  simp only [List.mem_cons, List.not_mem_nil, or_false] at hm2
  rcases hm2 with h | h | h | h
  · subst h; cases dry <;> exact ⟨rfl, rfl⟩
  · subst h; exact ⟨rfl, rfl⟩
  · subst h; exact ⟨rfl, rfl⟩
  · subst h
    cases rows with
    | nil => exact ⟨rfl, rfl⟩
    | cons r rs => exact ⟨rfl, rfl⟩

/-- Nor can the final summary line. -/
theorem summary_benign (dry : Bool) (a b c : String) :
    strStarts ((if dry then "Validation" else "Transformation") ++ " complete: "
        ++ a ++ " valid, " ++ b ++ " skipped, " ++ c ++ " errors")
      "Output written to" = false ∧
    strStarts ((if dry then "Validation" else "Transformation") ++ " complete: "
        ++ a ++ " valid, " ++ b ++ " skipped, " ++ c ++ " errors")
      "OUTPUT SKIPPED" = false := by
  cases dry <;> exact ⟨rfl, rfl⟩

/-- After the whole row loop, no accumulated log line starts with
`Output written to` or `OUTPUT SKIPPED`. -/
theorem run_logs_benign (t : DynamicTransformer) (dry : Bool) (inName : String)
    (rows : List Row) :
    hasLogStarting (processRows t dry 2 rows
        ⟨addLog (initResult t inName dry) (columnsLog rows), []⟩).result
      "Output written to" = false ∧
    hasLogStarting (processRows t dry 2 rows
        ⟨addLog (initResult t inName dry) (columnsLog rows), []⟩).result
      "OUTPUT SKIPPED" = false := by
  obtain ⟨_, _, _, _, hlogs⟩ := processRows_master t dry rows 2
    ⟨addLog (initResult t inName dry) (columnsLog rows), []⟩
  constructor
  · rw [hasLogStarting, List.any_eq_false]
    intro m hm
    rcases hlogs m hm with hinit | hline
    · simpa using (initLogs_benign t inName dry rows m hinit).1
    · simpa using (line_log_not_out m hline).1
  · rw [hasLogStarting, List.any_eq_false]
    intro m hm
    rcases hlogs m hm with hinit | hline
    · simpa using (initLogs_benign t inName dry rows m hinit).2
    · simpa using (line_log_not_out m hline).2

/-! ## The claims -/

/-- Claim C3, counterexample: the claim asserts that *every* lookup whose
source value is present, differs from `_default`, and is absent from the
table emits exactly one RowError while returning the configured default.
With the table `{"BUY": "BUY", "_default": "OTHER"}` and source value
`"SELL"` — present, not `_default`, absent from the table — the code
returns `"OTHER"` and emits *no* RowError, because the error branch fires
only when the returned default is `None`
(`dynamic.py`, `if result is None and ...`). -/
theorem C3_counterexample :
    sourceValue rowSell fmLookupOther = Val.str "SELL" ∧
    tableFind fmLookupOther.transform_config.entries (Val.str "SELL") = Option.none ∧
    transform_value rowSell fmLookupOther 2 = (Val.str "OTHER", Option.none) :=
  ⟨rfl, rfl, rfl⟩

/-- Claim C3, amended: for every lookup application where the source
value is present, is not the `_default` key, is absent from the mapping
table, *and the configured default is absent or null*, `transform_value`
emits exactly one RowError for the destination field and returns null;
when the configured default is non-null it is returned with no RowError.
(The concrete instance `{"BUY": "BUY", "_default": null}` on `"SELL"`
returning null with exactly one RowError is the witness.) -/
theorem C3_lookup_amended (row : Row) (fm : FieldMapping) (ln : Nat)
    (htype : fm.transform_type = "lookup")
    (hsv : sourceValue row fm ≠ Val.none)
    (hnd : sourceValue row fm ≠ Val.str "_default")
    (habs : tableFind fm.transform_config.entries (sourceValue row fm) = Option.none) :
    (cfgGet fm.transform_config "_default" = Val.none →
      transform_value row fm ln
        = (Val.none, some { line_number := ln, field := fm.destination_field,
                            error_message := "Lookup value not found in mapping table",
                            source_value := sourceValue row fm, row_data := row })) ∧
    (cfgGet fm.transform_config "_default" ≠ Val.none →
      transform_value row fm ln = (cfgGet fm.transform_config "_default", Option.none)) := by
  obtain ⟨df, sf, tt, tc⟩ := fm
  simp only [FieldMapping.transform_type] at htype
  subst htype
  simp only [FieldMapping.transform_config] at habs ⊢
  simp only [transform_value, String.reduceEq, reduceIte]
  rw [habs]
  simp only [Option.getD_none]
  constructor
  · intro hd
    rw [if_pos ⟨hd, hsv, trivial⟩]
    simp [hd]
  · intro hd
    rw [if_neg]
    intro hcon
    exact hd hcon.1

/-- Claim C3, witness: the amended theorem applied to the two concrete
lookup configurations. -/
theorem C3_witness :
    transform_value rowSell fmLookupNull 2
      = (Val.none, some { line_number := 2, field := "type",
                          error_message := "Lookup value not found in mapping table",
                          source_value := Val.str "SELL", row_data := rowSell }) ∧
    transform_value rowSell fmLookupOther 2 = (Val.str "OTHER", Option.none) :=
  ⟨(C3_lookup_amended rowSell fmLookupNull 2 rfl (by decide) (by decide)
      (by decide)).1 (by decide),
   (C3_lookup_amended rowSell fmLookupOther 2 rfl (by decide) (by decide)
      (by decide)).2 (by decide)⟩

/-- Claim C4, counterexample: the claim asserts that a field name absent
from the row is substituted by 0 and the formula evaluates to 0 with no
RowError.  With expression `quantity * price` and the row
`{"quantity": "2"}` (no `price` key), the substitution loop — which
iterates the *row's* fields, not the expression's names — leaves `price`
in place; the guarded `eval` then fails (`NameError`), so the code
returns an absent value together with one RowError, not 0 with none. -/
theorem C4_counterexample :
    transform_value [("quantity", Val.str "2")] fmFormulaQP 2
      = (Val.none, some { line_number := 2, field := "total",
                          error_message := "Formula evaluation failed: quantity * price",
                          source_value := Val.none,
                          row_data := [("quantity", Val.str "2")] }) ∧
    decide (transform_value [("quantity", Val.str "2")] fmFormulaQP 2
      = (Val.num ⟨0, 1⟩, Option.none)) = false :=
  ⟨rfl, rfl⟩

/-- Claim C4, amended: every field name *present in the row* and occurring
in the expression is replaced by its numeric value (non-numeric or empty
values treated as 0) and the resulting arithmetic expression is
evaluated; a field name absent from the row is left unsubstituted, making
evaluation fail: the transform then returns an absent value and emits one
RowError.  In particular `quantity * price` on
`{"quantity": "2", "price": "10.5"}` evaluates to `21.0`; with `price`
present but empty it evaluates to `0` with no RowError; with `price`
absent it returns absent and emits exactly one RowError. -/
theorem C4_formula_amended :
    transform_value [("quantity", Val.str "2"), ("price", Val.str "10.5")] fmFormulaQP 2
      = (Val.num ⟨21, 1⟩, Option.none) ∧
    transform_value [("quantity", Val.str "2"), ("price", Val.str "")] fmFormulaQP 2
      = (Val.num ⟨0, 1⟩, Option.none) ∧
    transform_value [("quantity", Val.str "2")] fmFormulaQP 2
      = (Val.none, some { line_number := 2, field := "total",
                          error_message := "Formula evaluation failed: quantity * price",
                          source_value := Val.none,
                          row_data := [("quantity", Val.str "2")] }) :=
  ⟨rfl, rfl, rfl⟩

/-- Claim C5, counterexample: the claim asserts that on parse failure
`transform_value` returns *the original raw source value*.  The code
rebinds `source_value` to the Z-stripped string before parsing
(`source_value = source_value.replace("Z", "")`), so for the unparsable
`"2020-13-01T00:00:00Z"` (month 13) it returns the *stripped* string
`"2020-13-01T00:00:00"`, which differs from the original raw value. -/
theorem C5_counterexample :
    transform_value [("Date", Val.str "2020-13-01T00:00:00Z")] fmDateDefault 2
      = (Val.str "2020-13-01T00:00:00",
         some { line_number := 2, field := "date",
                error_message := "Date format error",
                source_value := Val.str "2020-13-01T00:00:00",
                row_data := [("Date", Val.str "2020-13-01T00:00:00Z")] }) ∧
    decide ((transform_value [("Date", Val.str "2020-13-01T00:00:00Z")] fmDateDefault 2).1
      = Val.str "2020-13-01T00:00:00Z") = false :=
  ⟨rfl, rfl⟩

/-- Claim C5, amended: for a `date_format` transform, an empty (falsy)
source value yields an absent result with no error; otherwise the
sub-second fraction (everything from the first dot) is stripped, and
every `Z` is removed when the string contains both `T` and `Z`; the value
is parsed with `input_format` (default `%Y-%m-%dT%H:%M:%S`) and
re-rendered with `output_format` (default `%Y-%m-%d`).  On parse failure
`transform_value` returns the raw source value *as it stands after the
Z-stripping step* (identical to the original unless the value contained
both `T` and `Z`) and emits a RowError describing the format mismatch. -/
theorem C5_date_amended :
    (∀ (row : Row) (fm : FieldMapping) (ln : Nat),
        fm.transform_type = "date_format" →
        truthy (sourceValue row fm) = false →
        transform_value row fm ln = (Val.none, Option.none)) ∧
    transform_value [("Date", Val.str "2020-02-03T09:18:39")] fmDateDefault 2
      = (Val.str "2020-02-03", Option.none) ∧
    transform_value [("Date", Val.str "2020-02-03T09:18:39.123Z")] fmDateDefault 2
      = (Val.str "2020-02-03", Option.none) ∧
    transform_value [("Date", Val.str "02/03/2020")] fmDateDefault 2
      = (Val.str "02/03/2020",
         some { line_number := 2, field := "date",
                error_message := "Date format error",
                source_value := Val.str "02/03/2020",
                row_data := [("Date", Val.str "02/03/2020")] }) ∧
    transform_value [("Date", Val.str "2020-13-01T00:00:00Z")] fmDateDefault 2
      = (Val.str "2020-13-01T00:00:00",
         some { line_number := 2, field := "date",
                error_message := "Date format error",
                source_value := Val.str "2020-13-01T00:00:00",
                row_data := [("Date", Val.str "2020-13-01T00:00:00Z")] }) := by
  refine ⟨?_, rfl, rfl, rfl, rfl⟩
  intro row fm ln htype hsv
  obtain ⟨df, sf, tt, tc⟩ := fm
  simp only [FieldMapping.transform_type] at htype
  subst htype
  simp only [transform_value, String.reduceEq, reduceIte]
  simp [hsv]

/-- Claim C5, witness: the empty-source clause of the amended theorem at
an empty `Date` cell. -/
theorem C5_witness :
    transform_value [("Date", Val.str "")] fmDateDefault 2 = (Val.none, Option.none) :=
  C5_date_amended.1 [("Date", Val.str "")] fmDateDefault 2 rfl (by decide)

/-- Claim C7, counterexample (for the output-writing clause): the
output-writing block of `_process_file` is not inside any `try`, so a
file-system failure while creating or writing the output file escapes
`transform_file` instead of being captured in the TransformResult.  With
one clean row (so the write is attempted) and a failing write, the call
raises. -/
theorem C7_counterexample :
    transform_file tDirect "in.csv" (Except.ok [[("A", Val.str "x")]]) "out.csv"
      true (Except.error "disk full") = Except.error "disk full" := rfl

/-- Claim C7, amended: no exception escapes `validate_file` for any
read outcome; no exception escapes `transform_file` when the output
write itself succeeds (field-level transform errors and row outcomes are
all captured in the result); and an input read failure is captured as an
`ERROR: Failed to read input file` log line on a zero-count result.
Only an output-write failure propagates to the caller
(see `C7_counterexample`). -/
theorem C7_exception_capture (t : DynamicTransformer) (inName : String)
    (readRes : Except String (List Row)) (outName : String) (foe : Bool)
    (e : String) (output : Option String) (dry : Bool) (w : Except String Unit) :
    isOkE (validate_file t inName readRes) = true ∧
    isOkE (transform_file t inName readRes outName foe (Except.ok ())) = true ∧
    process_file t inName (Except.error e) output dry foe w
      = Except.ok (addLog (initResult t inName dry)
          ("ERROR: Failed to read input file: " ++ e)) := by
  refine ⟨?_, ?_, rfl⟩
  · cases readRes with
    | error e2 => rfl
    | ok rows => rfl
  · cases readRes with
    | error e2 => rfl
    | ok rows =>
      simp only [transform_file, process_file]
      split
      · split
        · rfl
        · rfl
      · rfl

/-- Claim C8 (code_bug): the spec requires formula substitution to
process longer field names before shorter substring names
(`price_total` before `price`).  The code iterates the row's fields in
insertion order with plain `str.replace`, so with columns in the order
`price, price_total` the expression `price_total` is corrupted to
`2.0_total`, evaluation fails, and the transform yields an absent value
plus a RowError — while the same row with the columns in the opposite
order evaluates to `30.0`.  This exhibits exactly the partial-token
corruption the claim says cannot happen. -/
theorem C8_substitution_collision :
    substituteFields [("price", Val.str "2"), ("price_total", Val.str "30")]
      "price_total" = "2.0_total" ∧
    transform_value [("price", Val.str "2"), ("price_total", Val.str "30")] fmFormulaPT 2
      = (Val.none, some { line_number := 2, field := "t",
                          error_message := "Formula evaluation failed: price_total",
                          source_value := Val.none,
                          row_data := [("price", Val.str "2"), ("price_total", Val.str "30")] }) ∧
    substituteFields [("price_total", Val.str "30"), ("price", Val.str "2")]
      "price_total" = "30.0" :=
  ⟨rfl, rfl, rfl⟩

/-- Whatever gate branch a successful-write pass takes, the final counts
are those accumulated by the row loop. -/
theorem process_file_ok_counts (t : DynamicTransformer) (inName : String)
    (rows : List Row) (output : Option String) (dry foe : Bool) :
    (runOk (process_file t inName (Except.ok rows) output dry foe (Except.ok ()))).success_count
      = (processRows t dry 2 rows
          ⟨addLog (initResult t inName dry) (columnsLog rows), []⟩).result.success_count ∧
    (runOk (process_file t inName (Except.ok rows) output dry foe (Except.ok ()))).skipped_count
      = (processRows t dry 2 rows
          ⟨addLog (initResult t inName dry) (columnsLog rows), []⟩).result.skipped_count ∧
    (runOk (process_file t inName (Except.ok rows) output dry foe (Except.ok ()))).error_count
      = (processRows t dry 2 rows
          ⟨addLog (initResult t inName dry) (columnsLog rows), []⟩).result.error_count := by
  simp only [process_file]
  split
  · split
    · exact ⟨rfl, rfl, rfl⟩
    · exact ⟨rfl, rfl, rfl⟩
  · exact ⟨rfl, rfl, rfl⟩

/-- Claim C2: for every file pass (validate or transform), the returned
TransformResult satisfies `success_count + skipped_count + (number of
rows that produced at least one RowError) = number of rows read`, and a
row that produced an error is never counted in `success_count`:
`success_count` is exactly the number of rows with a truthy output dict
and an empty error list. -/
theorem C2_count_invariant (t : DynamicTransformer) (inName : String)
    (rows : List Row) (output : Option String) (dry foe : Bool) :
    (runOk (process_file t inName (Except.ok rows) output dry foe (Except.ok ()))).success_count
        + (runOk (process_file t inName (Except.ok rows) output dry foe (Except.ok ()))).skipped_count
        + erroredRows t 2 rows = rows.length ∧
    (runOk (process_file t inName (Except.ok rows) output dry foe (Except.ok ()))).success_count
        = cleanRows t 2 rows ∧
    (runOk (process_file t inName (Except.ok rows) output dry foe (Except.ok ()))).skipped_count
        = skippedRows t 2 rows := by
  obtain ⟨hS, hK, _⟩ := process_file_ok_counts t inName rows output dry foe
  obtain ⟨m1, m2, _, _, _⟩ := processRows_master t dry rows 2
    ⟨addLog (initResult t inName dry) (columnsLog rows), []⟩
  have hS2 : (runOk (process_file t inName (Except.ok rows) output dry foe
      (Except.ok ()))).success_count = cleanRows t 2 rows := by
    rw [hS, m1]
    show 0 + cleanRows t 2 rows = cleanRows t 2 rows
    omega
  have hK2 : (runOk (process_file t inName (Except.ok rows) output dry foe
      (Except.ok ()))).skipped_count = skippedRows t 2 rows := by
    rw [hK, m2]
    show 0 + skippedRows t 2 rows = skippedRows t 2 rows
    omega
  refine ⟨?_, hS2, hK2⟩
  rw [hS2, hK2]
  exact class_partition t rows 2

/-- Claim C6: a row matched by some filter rule takes exactly the skipped
branch of the loop: `transform_row` returns `(None, [])`, so the step
increments `skipped_count` by one, appends only the
`Line n: Skipped (filtered out)` log line, adds no RowError, and leaves
the output buffer — the only source of written rows — unchanged. -/
theorem C6_filtered_rows (t : DynamicTransformer) (dry : Bool) (ln : Nat)
    (row : Row) (st : RunState)
    (h : should_skip t.filter_rules row = true) :
    transform_row t row ln = (Option.none, []) ∧
    stepRow t dry ln row st =
      { result := addLog { st.result with
            skipped_count := st.result.skipped_count + 1 }
          ("Line " ++ natStr ln ++ ": Skipped (filtered out)"),
        buffer := st.buffer } := by
  have htr := transform_row_skip t row ln h
  refine ⟨htr, ?_⟩
  simp only [stepRow, htr]
  rfl

/-- Claim C6, witness: a `Type equals DEPOSIT` rule on a `DEPOSIT` row. -/
theorem C6_witness :
    stepRow tDateFilter false 2 rowDeposit ⟨{}, []⟩ =
      { result := { success_count := 0, skipped_count := 1, error_count := 0,
                    errors := [],
                    log_messages := ["Line 2: Skipped (filtered out)"] },
        buffer := [] } :=
  (C6_filtered_rows tDateFilter false 2 rowDeposit ⟨{}, []⟩ (by decide)).2

/-- Claim C9: with zero field mappings, a row that no filter removes
comes back from `transform_row` as the empty output dict with no errors;
the empty dict is falsy, so `_process_file` counts the row as skipped
(logging `Skipped (filtered out)`), never as a success, and buffers
nothing. -/
theorem C9_empty_mappings (t : DynamicTransformer) (dry : Bool) (ln : Nat)
    (row : Row) (st : RunState)
    (hfm : t.field_mappings = [])
    (hsk : should_skip t.filter_rules row = false) :
    transform_row t row ln = (some [], []) ∧
    stepRow t dry ln row st =
      { result := addLog { st.result with
            skipped_count := st.result.skipped_count + 1 }
          ("Line " ++ natStr ln ++ ": Skipped (filtered out)"),
        buffer := st.buffer } := by
  have htr := transform_row_no_mappings t row ln hfm hsk
  refine ⟨htr, ?_⟩
  simp only [stepRow, htr]
  rfl

/-- Claim C9, witness: the empty-mapping transformer on an unfiltered row. -/
theorem C9_witness :
    stepRow tEmptyMappings false 2 [("Type", Val.str "BUY")] ⟨{}, []⟩ =
      { result := { success_count := 0, skipped_count := 1, error_count := 0,
                    errors := [],
                    log_messages := ["Line 2: Skipped (filtered out)"] },
        buffer := [] } :=
  (C9_empty_mappings tEmptyMappings false 2 [("Type", Val.str "BUY")] ⟨{}, []⟩
    rfl (by decide)).2

/-- Claim C10: in transform mode, if the pass buffers zero output rows
(every read row was filtered out or falsy), then the write effect is
never invoked — no output file or header row is created (the result is
literally independent of the write outcome) — and no `OUTPUT SKIPPED`
(nor `Output written to`) log line is emitted, regardless of
`error_count` and `fail_on_error`: the gating block requires a truthy
`results` list before looking at either. -/
theorem C10_no_buffer_no_output (t : DynamicTransformer) (inName : String) (rows : List Row)
    (output : Option String) (dry foe : Bool) (w1 w2 : Except String Unit)
    (h : bufferedRows t 2 rows = []) :
    process_file t inName (Except.ok rows) output dry foe w1
      = process_file t inName (Except.ok rows) output dry foe w2 ∧
    isOkE (process_file t inName (Except.ok rows) output dry foe w1) = true ∧
    hasLogStarting (runOk (process_file t inName (Except.ok rows) output dry foe w1))
      "OUTPUT SKIPPED" = false ∧
    hasLogStarting (runOk (process_file t inName (Except.ok rows) output dry foe w1))
      "Output written to" = false := by
  obtain ⟨_, _, _, hbuf, _⟩ := processRows_master t dry rows 2
    ⟨addLog (initResult t inName dry) (columnsLog rows), []⟩
  rw [h] at hbuf
  have hbuf2 : (processRows t dry 2 rows
      ⟨addLog (initResult t inName dry) (columnsLog rows), []⟩).buffer = [] := by
    simpa using hbuf
  have hcond : (!dry && output.isSome && !(processRows t dry 2 rows
      ⟨addLog (initResult t inName dry) (columnsLog rows), []⟩).buffer.isEmpty) = false := by
    rw [hbuf2]; simp
  obtain ⟨hbenOw, hbenOs⟩ := run_logs_benign t dry inName rows
  refine ⟨?_, ?_, ?_, ?_⟩
  · simp [process_file, hcond]
  · simp [process_file, hcond, isOkE, process_file.finish]
  · simp only [process_file, hcond, Bool.false_eq_true, if_false, process_file.finish, runOk]
    rw [hasLogStarting_addLog]
    rw [hbenOs]
    simp only [Bool.false_or]
    exact (summary_benign dry _ _ _).2
  · simp only [process_file, hcond, Bool.false_eq_true, if_false, process_file.finish, runOk]
    rw [hasLogStarting_addLog]
    rw [hbenOw]
    simp only [Bool.false_or]
    exact (summary_benign dry _ _ _).1

/-- Claim C10, witness: a one-row input whose row is filtered out, with a
failing write effect on one side and a successful one on the other. -/
theorem C10_witness :
    process_file tDateFilter "in.csv" (Except.ok [rowDeposit]) (some "out.csv")
        false true (Except.error "boom")
      = process_file tDateFilter "in.csv" (Except.ok [rowDeposit]) (some "out.csv")
        false true (Except.ok ()) ∧
    isOkE (process_file tDateFilter "in.csv" (Except.ok [rowDeposit]) (some "out.csv")
        false true (Except.error "boom")) = true ∧
    hasLogStarting (runOk (process_file tDateFilter "in.csv" (Except.ok [rowDeposit])
        (some "out.csv") false true (Except.error "boom"))) "OUTPUT SKIPPED" = false ∧
    hasLogStarting (runOk (process_file tDateFilter "in.csv" (Except.ok [rowDeposit])
        (some "out.csv") false true (Except.error "boom"))) "Output written to" = false :=
  C10_no_buffer_no_output tDateFilter "in.csv" [rowDeposit] (some "out.csv")
    false true (Except.error "boom") (Except.ok ()) (by decide)

/-- Claim C1: in transform mode (not dry-run) with a successful write
effect, after the full pass the buffered rows are written only if
`error_count = 0` or the caller set `fail_on_error = false` (the
`Output written to` log line marks a performed write); and whenever
`error_count > 0` with `fail_on_error = true`, no write happens and an
`OUTPUT SKIPPED` log line explaining why is appended to the result.
(The second clause is non-vacuous because any error forces a nonempty
buffer, so the gating block is reached; see `totalErrors_pos_buffer`.) -/
theorem C1_output_gating (t : DynamicTransformer) (inName : String) (rows : List Row)
    (outName : String) (foe : Bool) :
    (hasLogStarting (runOk (process_file t inName (Except.ok rows) (some outName)
          false foe (Except.ok ()))) "Output written to" = true →
      (runOk (process_file t inName (Except.ok rows) (some outName)
          false foe (Except.ok ()))).error_count = 0 ∨ foe = false) ∧
    (0 < (runOk (process_file t inName (Except.ok rows) (some outName)
          false foe (Except.ok ()))).error_count ∧ foe = true →
      hasLogStarting (runOk (process_file t inName (Except.ok rows) (some outName)
          false foe (Except.ok ()))) "OUTPUT SKIPPED" = true ∧
      hasLogStarting (runOk (process_file t inName (Except.ok rows) (some outName)
          false foe (Except.ok ()))) "Output written to" = false) := by
  obtain ⟨_, _, merr, mbuf, _⟩ := processRows_master t false rows 2
    ⟨addLog (initResult t inName false) (columnsLog rows), []⟩
  obtain ⟨hbenOw, hbenOs⟩ := run_logs_benign t false inName rows
  by_cases hbuf : (processRows t false 2 rows
      ⟨addLog (initResult t inName false) (columnsLog rows), []⟩).buffer.isEmpty = true
  · have hcond : (!false && (some outName).isSome && !(processRows t false 2 rows
        ⟨addLog (initResult t inName false) (columnsLog rows), []⟩).buffer.isEmpty) = false := by
      rw [hbuf]; rfl
    have hred : process_file t inName (Except.ok rows) (some outName) false foe (Except.ok ())
        = process_file.finish false ((processRows t false 2 rows
            ⟨addLog (initResult t inName false) (columnsLog rows), []⟩).result) := by
      simp only [process_file]
      rw [hcond, if_neg (show ¬(false = true) by simp)]
    rw [hred]
    have hOw : hasLogStarting (runOk (process_file.finish false ((processRows t false 2 rows
        ⟨addLog (initResult t inName false) (columnsLog rows), []⟩).result))) "Output written to" = false := by
      simp only [process_file.finish, runOk]
      rw [hasLogStarting_addLog, hbenOw]
      simp only [Bool.false_or]
      exact (summary_benign false _ _ _).1
    constructor
    · intro hw
      rw [hOw] at hw
      simp at hw
    · rintro ⟨herr, hfoe⟩
      exfalso
      have herr2 : 0 < (processRows t false 2 rows
          ⟨addLog (initResult t inName false) (columnsLog rows), []⟩).result.error_count := herr
      rw [merr] at herr2
      have hte : totalErrors t 2 rows ≠ 0 := by
        revert herr2
        show 0 < 0 + totalErrors t 2 rows → totalErrors t 2 rows ≠ 0
        omega
      have hbne := totalErrors_pos_buffer t rows 2 hte
      rw [mbuf] at hbuf
      simp [List.isEmpty_iff] at hbuf
      exact hbne hbuf
  · have hbuf2 : (processRows t false 2 rows
        ⟨addLog (initResult t inName false) (columnsLog rows), []⟩).buffer.isEmpty = false := by
      revert hbuf
      cases (processRows t false 2 rows
        ⟨addLog (initResult t inName false) (columnsLog rows), []⟩).buffer.isEmpty <;> simp
    have hcond : (!false && (some outName).isSome && !(processRows t false 2 rows
        ⟨addLog (initResult t inName false) (columnsLog rows), []⟩).buffer.isEmpty) = true := by
      rw [hbuf2]; rfl
    by_cases hge : 0 < (processRows t false 2 rows
        ⟨addLog (initResult t inName false) (columnsLog rows), []⟩).result.error_count ∧ foe = true
    · have hred : process_file t inName (Except.ok rows) (some outName) false foe (Except.ok ())
          = process_file.finish false (addLog ((processRows t false 2 rows
              ⟨addLog (initResult t inName false) (columnsLog rows), []⟩).result)
              ("OUTPUT SKIPPED: " ++ natStr ((processRows t false 2 rows
                ⟨addLog (initResult t inName false) (columnsLog rows), []⟩).result.error_count)
                ++ " errors found. Fix errors before converting.")) := by
        simp only [process_file]
        rw [hcond, if_pos (show (true = true) from rfl), if_pos hge]
      rw [hred]
      have hOw : hasLogStarting (runOk (process_file.finish false (addLog ((processRows t false 2 rows
          ⟨addLog (initResult t inName false) (columnsLog rows), []⟩).result) ("OUTPUT SKIPPED: "
            ++ natStr ((processRows t false 2 rows
              ⟨addLog (initResult t inName false) (columnsLog rows), []⟩).result.error_count)
            ++ " errors found. Fix errors before converting.")))) "Output written to" = false := by
        simp only [process_file.finish, runOk]
        rw [hasLogStarting_addLog, hasLogStarting_addLog, hbenOw]
        simp only [Bool.false_or]
        rw [show strStarts ("OUTPUT SKIPPED: " ++ natStr ((processRows t false 2 rows
            ⟨addLog (initResult t inName false) (columnsLog rows), []⟩).result.error_count)
            ++ " errors found. Fix errors before converting.") "Output written to" = false from rfl]
        simp only [Bool.false_or]
        exact (summary_benign false _ _ _).1
      have hOs : hasLogStarting (runOk (process_file.finish false (addLog ((processRows t false 2 rows
          ⟨addLog (initResult t inName false) (columnsLog rows), []⟩).result) ("OUTPUT SKIPPED: "
            ++ natStr ((processRows t false 2 rows
              ⟨addLog (initResult t inName false) (columnsLog rows), []⟩).result.error_count)
            ++ " errors found. Fix errors before converting.")))) "OUTPUT SKIPPED" = true := by
        simp only [process_file.finish, runOk]
        rw [hasLogStarting_addLog, hasLogStarting_addLog]
        rw [show strStarts ("OUTPUT SKIPPED: " ++ natStr ((processRows t false 2 rows
            ⟨addLog (initResult t inName false) (columnsLog rows), []⟩).result.error_count)
            ++ " errors found. Fix errors before converting.") "OUTPUT SKIPPED" = true from rfl]
        simp
      constructor
      · intro hw
        rw [hOw] at hw
        simp at hw
      · intro _
        exact ⟨hOs, hOw⟩
    · have hred : process_file t inName (Except.ok rows) (some outName) false foe (Except.ok ())
          = process_file.finish false (addLog ((processRows t false 2 rows
              ⟨addLog (initResult t inName false) (columnsLog rows), []⟩).result)
              ("Output written to " ++ (some outName).getD "")) := by
        simp only [process_file]
        rw [hcond, if_pos (show (true = true) from rfl), if_neg hge]
      rw [hred]
      have herr_eq : (runOk (process_file.finish false (addLog ((processRows t false 2 rows
          ⟨addLog (initResult t inName false) (columnsLog rows), []⟩).result)
          ("Output written to " ++ (some outName).getD "")))).error_count
          = (processRows t false 2 rows
            ⟨addLog (initResult t inName false) (columnsLog rows), []⟩).result.error_count := rfl
      constructor
      · intro _
        by_cases hfoe : foe = true
        · left
          rw [herr_eq]
          by_contra hne
          exact hge ⟨Nat.pos_of_ne_zero hne, hfoe⟩
        · right
          revert hfoe
          cases foe <;> simp
      · rintro ⟨herr, hfoe⟩
        exfalso
        rw [herr_eq] at herr
        exact hge ⟨herr, hfoe⟩

/-- Claim C1, witness: a transform pass over one row with a malformed
date and `fail_on_error = true` skips the write and logs it. -/
theorem C1_witness :
    hasLogStarting (runOk (process_file tDateFilter "in.csv" (Except.ok [rowBadDate])
        (some "out.csv") false true (Except.ok ()))) "OUTPUT SKIPPED" = true ∧
    hasLogStarting (runOk (process_file tDateFilter "in.csv" (Except.ok [rowBadDate])
        (some "out.csv") false true (Except.ok ()))) "Output written to" = false :=
  (C1_output_gating tDateFilter "in.csv" [rowBadDate] "out.csv" true).2
    ⟨by decide, rfl⟩

end Etl

